import Mathlib

/-!
Shallow embedding of the agenttrace core (session state machine, policy
decision engine, kill-switch coordinator) from:
  src/agenttrace/engine/session.py
  src/agenttrace/engine/policy_engine.py
  src/agenttrace/engine/kill_switch.py
  src/agenttrace/engine/agent_trace.py

Modelling conventions:
  * Python floats (costs, timestamps, durations) are embedded as ℚ; the
    claims under study involve only exact decimal arithmetic.
  * Python dicts used as string-keyed maps are embedded as insertion-ordered
    association lists with lookup and in-place update helpers.
  * time.time() reads are passed in explicitly as a timestamp argument.
  * Exceptions are embedded as Except; a raising call returns .error and,
    where the caller's state matters, the unchanged state.
  * Logging calls (audit logger, python logging) and the audit-only
    session_state_snapshot payload carried by PolicyDecision, as well as
    dataclass fields never read by the claims (Session.metadata,
    ActionRecord.metadata), are not modelled; no claim mentions them.
-/

namespace AgentTrace

/-- Lookup in a string-keyed association list, embedding `d.get(k)`. -/
def dictGet {α : Type} : List (String × α) → String → Option α
  | [], _ => none
  | (k', v') :: rest, k => if k' == k then some v' else dictGet rest k

/-- Update in a string-keyed association list, embedding `d[k] = v`:
replaces the first binding of `k` in place, otherwise appends (Python
dicts keep insertion order and create keys on first assignment). -/
def dictSet {α : Type} : List (String × α) → String → α → List (String × α)
  | [], k, v => [(k, v)]
  | (k', v') :: rest, k, v =>
      if k' == k then (k, v) :: rest else (k', v') :: dictSet rest k v

theorem dictGet_dictSet_same {α : Type} (d : List (String × α)) (k : String) (v : α) :
    dictGet (dictSet d k v) k = some v := by
  induction d with
  | nil => simp [dictGet, dictSet]
  | cons p rest ih =>
    obtain ⟨k', v'⟩ := p
    by_cases h : k' = k
    · simp [dictGet, dictSet, h]
    · simpa [dictGet, dictSet, h] using ih

theorem dictGet_dictSet_other {α : Type} (d : List (String × α)) (k k₂ : String) (v : α)
    (hne : k₂ ≠ k) : dictGet (dictSet d k v) k₂ = dictGet d k₂ := by
  induction d with
  | nil => simp [dictGet, dictSet, Ne.symm hne]
  | cons p rest ih =>
    obtain ⟨k', v'⟩ := p
    by_cases h : k' = k
    · subst h
      simp [dictGet, dictSet, Ne.symm hne]
    · by_cases h2 : k' = k₂
      · subst h2
        simp [dictGet, dictSet, h]
      · simpa [dictGet, dictSet, h, h2] using ih

/-! ## Session data model (src/agenttrace/engine/session.py) -/

/-- Session lifecycle states (class SessionState). -/
inductive SessionState
  | active
  | alert
  | killed
  | completed
  | expired
deriving DecidableEq

/-- String value of a state, embedding the str-enum payload. -/
def SessionState.value : SessionState → String
  | .active => "active"
  | .alert => "alert"
  | .killed => "killed"
  | .completed => "completed"
  | .expired => "expired"

/-- A single violation event (dataclass ViolationRecord); the untyped
`details` dict is embedded as string pairs. -/
structure ViolationRecord where
  violation_type : String
  timestamp : ℚ
  details : List (String × String) := []
  action_index : ℕ := 0
deriving DecidableEq

/-- A single action taken by the agent (dataclass ActionRecord). -/
structure ActionRecord where
  action_name : String
  timestamp : ℚ
  cost : ℚ := 0
  blocked : Bool := false
  block_reason : Option String := none
  action_index : ℕ := 0
deriving DecidableEq

/-- Error raised on recording into a non-active session
(class SessionKilledError). -/
structure SessionKilledError where
  message : String
deriving DecidableEq

/-- One agent session's cumulative state (class Session). The per-session
lock serialises mutation in the source; here every operation is a pure
state transformer, which realises the same serialised semantics. -/
structure Session where
  session_id : String
  agent_id : String
  state : SessionState
  created_at : ℚ
  total_cost : ℚ
  action_count : ℕ
  violation_counts : List (String × ℕ)
  actions : List ActionRecord
  violations : List ViolationRecord
  kill_reason : Option String
deriving DecidableEq

/-- Session construction (Session.__init__ with an explicit id and clock). -/
def Session.create (session_id agent_id : String) (created_at : ℚ) : Session :=
  { session_id := session_id
    agent_id := agent_id
    state := .active
    created_at := created_at
    total_cost := 0
    action_count := 0
    violation_counts := []
    actions := []
    violations := []
    kill_reason := none }

/-- Property is_active: true exactly in ACTIVE and ALERT. -/
def Session.is_active (s : Session) : Bool :=
  match s.state with
  | .active => true
  | .alert => true
  | _ => false

/-- Cumulative count recorded for one violation type
(`self._violation_counts.get(violation_type, 0)`). -/
def Session.vcount (s : Session) (violation_type : String) : ℕ :=
  (dictGet s.violation_counts violation_type).getD 0

/-- Message text of the SessionKilledError raised by record_action
(float formatting aside, Python renders a missing reason as None). -/
def Session.killedMessage (s : Session) : String :=
  "Session " ++ s.session_id ++ " is " ++ s.state.value ++ ": " ++
    s.kill_reason.getD "None"

/-- Session.record_action: raises SessionKilledError when not active;
otherwise stamps the record with the pre-increment action count, appends
it, increments the count and adds the record's cost to the total. -/
def Session.record_action (s : Session) (action : ActionRecord) :
    Except SessionKilledError Session :=
  if s.is_active then
    .ok { s with
          actions := s.actions ++ [{ action with action_index := s.action_count }]
          action_count := s.action_count + 1
          total_cost := s.total_cost + action.cost }
  else
    .error ⟨s.killedMessage⟩

/-- Session.record_violation: increments the per-type counter (default 0
when unseen), appends a violation record stamped with the current action
count, and returns the new cumulative count. The source performs no
is_active check here. -/
def Session.record_violation (s : Session) (violation_type : String)
    (details : List (String × String)) (ts : ℚ) : ℕ × Session :=
  let count := (dictGet s.violation_counts violation_type).getD 0 + 1
  (count,
   { s with
     violation_counts := dictSet s.violation_counts violation_type count
     violations := s.violations ++
       [{ violation_type := violation_type
          timestamp := ts
          details := details
          action_index := s.action_count }] })

/-- Session.kill: unconditionally sets state to KILLED and stores the
reason (the source has no already-terminal guard). -/
def Session.kill (s : Session) (reason : String) : Session :=
  { s with state := .killed, kill_reason := some reason }

/-- Session.set_alert: ACTIVE becomes ALERT, every other state unchanged. -/
def Session.set_alert (s : Session) : Session :=
  if s.state = SessionState.active then { s with state := .alert } else s

/-- Session.complete: active sessions become COMPLETED, otherwise no-op. -/
def Session.complete (s : Session) : Session :=
  if s.is_active then { s with state := .completed } else s

/-! ## Session registry (class SessionManager) -/

/-- Thread-safe session registry; the dict from id to session is an
association list, and the shared mutable Session objects become explicit
map updates. -/
structure SessionManager where
  sessions : List (String × Session)
deriving DecidableEq

/-- SessionManager.get_session (`self._sessions.get(session_id)`). -/
def SessionManager.get_session (m : SessionManager) (session_id : String) :
    Option Session :=
  dictGet m.sessions session_id

/-- Write back the state of the (shared, mutated in place in Python)
session object under its id. -/
def SessionManager.set_session (m : SessionManager) (session_id : String)
    (s : Session) : SessionManager :=
  ⟨dictSet m.sessions session_id s⟩

/-- SessionManager.kill_session: kills only when the session exists and
is active, reporting whether a kill happened. -/
def SessionManager.kill_session (m : SessionManager) (session_id reason : String) :
    Bool × SessionManager :=
  match m.get_session session_id with
  | some s =>
      if s.is_active then (true, m.set_session session_id (s.kill reason))
      else (false, m)
  | none => (false, m)

/-! ## Policy engine (src/agenttrace/engine/policy_engine.py) -/

/-- What to do when a threshold is breached (class PolicyAction). -/
inductive PolicyAction
  | kill
  | alert
  | log
  | block
deriving DecidableEq

/-- Budget limits (dataclass BudgetPolicy), with the source's defaults. -/
structure BudgetPolicy where
  max_cost_per_session : ℚ := 5
  max_cost_per_action : ℚ := 1/2
  alert_at : ℚ := 4/5
  on_exceed : PolicyAction := .kill
deriving DecidableEq

/-- Session caps (dataclass SessionPolicy), with the source's defaults. -/
structure SessionPolicy where
  max_duration_seconds : ℚ := 1800
  max_actions : ℕ := 100
deriving DecidableEq

/-- Per-violation-type threshold (dataclass ViolationThreshold). -/
structure ViolationThreshold where
  violation_type : String
  max_count : ℕ
  on_threshold : PolicyAction := .kill
deriving DecidableEq

/-- Complete policy configuration (dataclass Policy); the kill-switch and
audit sections are carried where needed (webhooks on the KillSwitch). -/
structure Policy where
  version : String := "1.0"
  agent_id : String := "default"
  budget : BudgetPolicy := {}
  session : SessionPolicy := {}
  violation_thresholds : List ViolationThreshold := []
deriving DecidableEq

/-- Policy.get_violation_threshold: first configured threshold whose type
matches, none otherwise. -/
def Policy.get_violation_threshold (p : Policy) (violation_type : String) :
    Option ViolationThreshold :=
  p.violation_thresholds.find? (fun vt => vt.violation_type == violation_type)

/-- Result of evaluating session state against policy
(dataclass PolicyDecision); the audit-only session_state_snapshot payload
is not modelled. -/
structure PolicyDecision where
  action_allowed : Bool
  action_taken : PolicyAction
  reason : String
  violation_type : Option String := none
deriving DecidableEq

/-- PolicyEngine.evaluate_pre_action: ordered first-match checks over a
session snapshot. Reason strings keep the source's content without its
numeric float formatting. -/
def evaluate_pre_action (p : Policy) (session_total_cost : ℚ)
    (session_action_count : ℕ) (session_duration : ℚ) (estimated_cost : ℚ)
    (action_name : String) : PolicyDecision :=
  if session_duration > p.session.max_duration_seconds then
    { action_allowed := false
      action_taken := .kill
      reason := "Session duration exceeds limit for " ++ action_name }
  else if session_action_count ≥ p.session.max_actions then
    { action_allowed := false
      action_taken := .kill
      reason := "Action count reached limit" }
  else if estimated_cost > p.budget.max_cost_per_action then
    { action_allowed := false
      action_taken := .block
      reason := "Action cost exceeds per-action limit" }
  else if session_total_cost + estimated_cost > p.budget.max_cost_per_session then
    { action_allowed := false
      action_taken := p.budget.on_exceed
      reason := "Session cost would exceed budget" }
  else if (session_total_cost + estimated_cost) / p.budget.max_cost_per_session
      ≥ p.budget.alert_at then
    { action_allowed := true
      action_taken := .alert
      reason := "Budget utilization at alert threshold" }
  else
    { action_allowed := true
      action_taken := .log
      reason := "Action within policy limits" }

/-- PolicyEngine.evaluate_violation: unconfigured types always log;
configured types deny at cumulative_count greater than or equal to the
threshold with the configured on_threshold action. -/
def evaluate_violation (p : Policy) (violation_type : String)
    (cumulative_count : ℕ) : PolicyDecision :=
  match p.get_violation_threshold violation_type with
  | none =>
      { action_allowed := true
        action_taken := .log
        reason := "No threshold configured for " ++ violation_type
        violation_type := some violation_type }
  | some threshold =>
      if cumulative_count ≥ threshold.max_count then
        { action_allowed := false
          action_taken := threshold.on_threshold
          reason := "Violation count reached threshold for " ++ violation_type
          violation_type := some violation_type }
      else
        { action_allowed := true
          action_taken := .log
          reason := "Violation count below threshold for " ++ violation_type
          violation_type := some violation_type }

/-! ## Kill switch (src/agenttrace/engine/kill_switch.py) -/

/-- One notification attempt's recorded outcome: the success path carries
the http status code from _send_webhook, the exception path carries the
error text added in execute. -/
structure NotificationOutcome where
  kind : String
  url : String
  status : String
  status_code : Option ℕ := none
  error : Option String := none
deriving DecidableEq

/-- Record of a session termination (dataclass KillEvent). -/
structure KillEvent where
  session_id : String
  agent_id : String
  reason : String
  timestamp : ℚ
  session_cost : ℚ
  action_count : ℕ
  violation_counts : List (String × ℕ)
  notifications_sent : List NotificationOutcome
deriving DecidableEq

/-- Result of attempting delivery to one webhook target: either httpx
returned a response (with is_success and a status code) or the attempt
raised (timeout, connection error, ...). -/
inductive WebhookResult
  | response (is_success : Bool) (status_code : ℕ)
  | exn (message : String)
deriving DecidableEq

/-- Outcome recorded for one target, merging _send_webhook's returned dict
(response path) with execute's exception branch (error path). -/
def outcomeOf (url : String) : WebhookResult → NotificationOutcome
  | .response ok code =>
      { kind := "webhook"
        url := url
        status := if ok then "sent" else "failed"
        status_code := some code }
  | .exn msg =>
      { kind := "webhook"
        url := url
        status := "failed"
        error := some msg }

/-- Kill-switch coordinator state (class KillSwitch); callbacks and
pagerduty configuration, never exercised by the claims, are not
modelled. -/
structure KillSwitch where
  webhooks : List String
  kill_history : List KillEvent
deriving DecidableEq

/-- KillSwitch.execute: kills the session, builds the KillEvent from the
killed session's (frozen) counters, collects one delivery outcome per
configured webhook — gather with return_exceptions=True, an exception for
one target recorded as a failed outcome without touching the others — and
appends the finished event to the kill history before returning it.
Delivery itself is external IO, abstracted as the deliver oracle. -/
def KillSwitch.execute (ks : KillSwitch) (s : Session) (reason : String)
    (ts : ℚ) (deliver : String → WebhookResult) :
    KillEvent × Session × KillSwitch :=
  let s' := s.kill reason
  let outcomes := ks.webhooks.map (fun url => outcomeOf url (deliver url))
  let event : KillEvent :=
    { session_id := s'.session_id
      agent_id := s'.agent_id
      reason := reason
      timestamp := ts
      session_cost := s'.total_cost
      action_count := s'.action_count
      violation_counts := s'.violation_counts
      notifications_sent := outcomes }
  (event, s', { ks with kill_history := ks.kill_history ++ [event] })

/-! ## Orchestrator (src/agenttrace/engine/agent_trace.py) -/

/-- Error taxonomy surfaced by the orchestrator helpers: ValueError on an
unknown id, SessionKilledError on a non-active session. -/
inductive ATError
  | sessionNotFound (session_id : String)
  | sessionKilled (message : String)
deriving DecidableEq

/-- AgentTrace._get_active_session: raises for unknown ids and for
sessions that are no longer active, otherwise hands back the session. -/
def get_active_session (m : SessionManager) (session_id : String) :
    Except ATError Session :=
  match m.get_session session_id with
  | none => .error (.sessionNotFound ("Session not found: " ++ session_id))
  | some s =>
      if s.is_active then .ok s
      else
        .error (.sessionKilled
          ("Session " ++ session_id ++ " is " ++ s.state.value ++ ": " ++
            s.kill_reason.getD "None"))

/-- Top-level orchestrator state (class AgentTrace): policy engine,
session registry and kill switch; cost tracker and audit logger carry no
state the claims read. -/
structure AgentTraceCore where
  policy : Policy
  session_manager : SessionManager
  kill_switch : KillSwitch
deriving DecidableEq

/-- AgentTrace.record_violation: requires an active session (raising
before any mutation otherwise — the returned state is the input state on
the error path), records the violation, evaluates the cumulative count
against policy, and executes the kill switch when the decision is a
deny-with-kill. Audit logging is a pure side channel and not modelled. -/
def AgentTraceCore.record_violation (tr : AgentTraceCore) (session_id : String)
    (violation_type : String) (details : List (String × String)) (ts : ℚ)
    (deliver : String → WebhookResult) :
    Except ATError PolicyDecision × AgentTraceCore :=
  match get_active_session tr.session_manager session_id with
  | .error e => (.error e, tr)
  | .ok s =>
      let rv := s.record_violation violation_type details ts
      let decision := evaluate_violation tr.policy violation_type rv.1
      if decision.action_allowed = false ∧ decision.action_taken = PolicyAction.kill then
        let ex := tr.kill_switch.execute rv.2 decision.reason ts deliver
        (.ok decision,
         { tr with
           session_manager := tr.session_manager.set_session session_id ex.2.1
           kill_switch := ex.2.2 })
      else
        (.ok decision,
         { tr with
           session_manager := tr.session_manager.set_session session_id rv.2 })

/-! ## Reference-semantics model for the copying accessors

Claim C10 is about Python object identity: `Session.violation_counts`
returns `dict(self._violation_counts)` and `KillSwitch.kill_history`
returns `list(self._kill_history)` — fresh containers, so mutating the
returned container cannot reach the internal one. A purely functional
embedding cannot distinguish a copy from an alias, so the two accessors
are embedded against a minimal heap: cells hold container values,
references are cell indices, and `dict(...)`/`list(...)` allocate a fresh
cell holding the same contents. An aliasing implementation would return
the internal reference itself and the frame theorem below would fail. -/

/-- Minimal heap of container cells. -/
structure Heap (α : Type) where
  cells : List α
deriving DecidableEq

/-- Allocate a fresh cell, returning its reference. -/
def Heap.alloc {α : Type} (h : Heap α) (v : α) : ℕ × Heap α :=
  (h.cells.length, ⟨h.cells ++ [v]⟩)

/-- Read the cell behind a reference. -/
def Heap.read {α : Type} (h : Heap α) (r : ℕ) : Option α :=
  h.cells[r]?

/-- Overwrite the cell behind a reference, embedding in-place container
mutation (item assignment, append, clear, ...). -/
def Heap.write {α : Type} (h : Heap α) (r : ℕ) (v : α) : Heap α :=
  ⟨h.cells.set r v⟩

/-- Property Session.violation_counts under reference semantics:
`dict(self._violation_counts)` allocates a fresh dict with the same
contents and returns the fresh reference. -/
def violation_counts_copy (h : Heap (List (String × ℕ))) (internal : ℕ) :
    ℕ × Heap (List (String × ℕ)) :=
  h.alloc ((h.read internal).getD [])

/-- Property KillSwitch.kill_history under reference semantics:
`list(self._kill_history)` allocates a fresh list with the same contents
and returns the fresh reference. -/
def kill_history_copy (h : Heap (List KillEvent)) (internal : ℕ) :
    ℕ × Heap (List KillEvent) :=
  h.alloc ((h.read internal).getD [])

/-! ## Claims -/

/-- C3: evaluate_pre_action applies its checks in order with first-match
short-circuit, so whenever duration and action count are within limits,
the estimated cost breaches the per-action ceiling, and the projected
session cost also breaches the per-session ceiling, the decision is a
deny with action Block — not Kill. -/
theorem evaluate_pre_action_per_action_block_first
    (p : Policy) (session_total_cost : ℚ) (session_action_count : ℕ)
    (session_duration estimated_cost : ℚ) (action_name : String)
    (hdur : session_duration ≤ p.session.max_duration_seconds)
    (hcount : session_action_count < p.session.max_actions)
    (haction : estimated_cost > p.budget.max_cost_per_action)
    (_hsession : session_total_cost + estimated_cost > p.budget.max_cost_per_session) :
    (evaluate_pre_action p session_total_cost session_action_count session_duration
        estimated_cost action_name).action_allowed = false ∧
    (evaluate_pre_action p session_total_cost session_action_count session_duration
        estimated_cost action_name).action_taken = PolicyAction.block := by
  have h1 : ¬ session_duration > p.session.max_duration_seconds := not_lt.mpr hdur
  have h2 : ¬ session_action_count ≥ p.session.max_actions := not_le.mpr hcount
  rw [evaluate_pre_action, if_neg h1, if_neg h2, if_pos haction]
  exact ⟨rfl, rfl⟩

/-- C3 witness: with the default policy (per-action ceiling 0.50, session
ceiling 5.00), a dual breach (total 4.70, estimate 0.60) yields Block by
the theorem, and the spec's concrete scenario (total 4.00, estimate 0.60)
also evaluates to a deny with Block. -/
theorem evaluate_pre_action_per_action_block_first_witness :
    ((evaluate_pre_action {} (47/10) 2 60 (3/5) "tool_call").action_allowed = false ∧
     (evaluate_pre_action {} (47/10) 2 60 (3/5) "tool_call").action_taken =
       PolicyAction.block) ∧
    (evaluate_pre_action {} 4 2 60 (3/5) "tool_call").action_allowed = false ∧
    (evaluate_pre_action {} 4 2 60 (3/5) "tool_call").action_taken =
      PolicyAction.block := by
  refine ⟨evaluate_pre_action_per_action_block_first {} (47/10) 2 60 (3/5) "tool_call"
    (by norm_num) (by norm_num) (by norm_num) (by norm_num),
    by norm_num [evaluate_pre_action], by norm_num [evaluate_pre_action]⟩

/-- C8: a violation type with no configured threshold always evaluates to
an allow with action Log, whatever the cumulative count. -/
theorem evaluate_violation_unconfigured_logs (p : Policy) (violation_type : String)
    (cumulative_count : ℕ)
    (hnone : p.get_violation_threshold violation_type = none) :
    (evaluate_violation p violation_type cumulative_count).action_allowed = true ∧
    (evaluate_violation p violation_type cumulative_count).action_taken =
      PolicyAction.log := by
  rw [evaluate_violation, hnone]
  exact ⟨rfl, rfl⟩

/-- C8 witness: a policy configuring only pii_blocked leaves unknown_x
unthrottled at cumulative count 100. -/
theorem evaluate_violation_unconfigured_logs_witness :
    (evaluate_violation
        { violation_thresholds := [{ violation_type := "pii_blocked", max_count := 3 }] }
        "unknown_x" 100).action_allowed = true ∧
    (evaluate_violation
        { violation_thresholds := [{ violation_type := "pii_blocked", max_count := 3 }] }
        "unknown_x" 100).action_taken = PolicyAction.log :=
  evaluate_violation_unconfigured_logs
    { violation_thresholds := [{ violation_type := "pii_blocked", max_count := 3 }] }
    "unknown_x" 100 (by decide)

/-- Case analysis of record_action: the error branch on a non-active
session and the exact successor state on an active one. -/
theorem record_action_cases (s : Session) (action : ActionRecord) :
    (s.is_active = false → s.record_action action = .error ⟨s.killedMessage⟩) ∧
    (s.is_active = true → s.record_action action =
      .ok { s with
            actions := s.actions ++ [{ action with action_index := s.action_count }]
            action_count := s.action_count + 1
            total_cost := s.total_cost + action.cost }) := by
  constructor
  · intro h
    simp [Session.record_action, h]
  · intro h
    simp [Session.record_action, h]

/-- C5: record_action fails with SessionKilledError exactly when the
session is not active; otherwise it appends the record stamped with the
pre-increment action count, increments the count by one and adds the
record's cost to the total. -/
theorem record_action_spec (s : Session) (action : ActionRecord) :
    (s.is_active = false → s.record_action action = .error ⟨s.killedMessage⟩) ∧
    (s.is_active = true → s.record_action action =
      .ok { s with
            actions := s.actions ++ [{ action with action_index := s.action_count }]
            action_count := s.action_count + 1
            total_cost := s.total_cost + action.cost }) :=
  record_action_cases s action

/-- C5 witness: recording a first action on a fresh session yields the
expected successor state, with the record's index equal to 0, the action
count before the increment. -/
theorem record_action_spec_witness :
    (Session.create "s1" "agent" 0).record_action
        { action_name := "tool", timestamp := 1, cost := 1/100 } =
      .ok { Session.create "s1" "agent" 0 with
            actions := [{ action_name := "tool", timestamp := 1, cost := 1/100,
                          action_index := 0 }]
            action_count := 1
            total_cost := 0 + 1/100 } :=
  (record_action_spec (Session.create "s1" "agent" 0)
      { action_name := "tool", timestamp := 1, cost := 1/100 }).2 rfl

/-- Returned count of one record_violation call: always the previous
cumulative count for that type plus one. -/
theorem record_violation_returns_succ (s : Session) (violation_type : String)
    (details : List (String × String)) (ts : ℚ) :
    (s.record_violation violation_type details ts).1 = s.vcount violation_type + 1 :=
  rfl

/-- Stored count after one record_violation call matches the returned
count. -/
theorem vcount_record_violation (s : Session) (violation_type : String)
    (details : List (String × String)) (ts : ℚ) :
    ((s.record_violation violation_type details ts).2).vcount violation_type =
      s.vcount violation_type + 1 := by
  simp [Session.record_violation, Session.vcount, dictGet_dictSet_same]

/-- Iterated record_violation for one violation type: the state after n
calls, paired with the count the last call returned (the current count
when n = 0). -/
def recordViolationTimes (s : Session) (violation_type : String) (ts : ℚ) :
    ℕ → ℕ × Session
  | 0 => (s.vcount violation_type, s)
  | n + 1 =>
      (recordViolationTimes s violation_type ts n).2.record_violation
        violation_type [] ts

theorem recordViolationTimes_vcount (s : Session) (violation_type : String)
    (ts : ℚ) (n : ℕ) :
    ((recordViolationTimes s violation_type ts n).2).vcount violation_type =
      s.vcount violation_type + n := by
  induction n with
  | zero => simp [recordViolationTimes]
  | succ m ih =>
    rw [recordViolationTimes, vcount_record_violation, ih]
    ring

theorem recordViolationTimes_fst (s : Session) (violation_type : String)
    (ts : ℚ) (n : ℕ) (hn : 1 ≤ n) :
    (recordViolationTimes s violation_type ts n).1 =
      s.vcount violation_type + n := by
  obtain ⟨m, rfl⟩ := Nat.exists_eq_add_of_le hn
  rw [Nat.add_comm 1 m, recordViolationTimes, record_violation_returns_succ,
    recordViolationTimes_vcount]
  omega

/-- C4: starting from a session with no recorded violations of the type,
the Nth record_violation call returns exactly N; against a policy whose
threshold for the type is N, evaluate_violation at count N denies with the
configured on_threshold action while count N - 1 still allows. -/
theorem violation_count_and_threshold (p : Policy) (s : Session)
    (violation_type : String) (ts : ℚ) (th : ViolationThreshold) (N : ℕ)
    (hstart : s.vcount violation_type = 0)
    (hth : p.get_violation_threshold violation_type = some th)
    (hmax : th.max_count = N) (hN : 1 ≤ N) :
    (recordViolationTimes s violation_type ts N).1 = N ∧
    (evaluate_violation p violation_type N).action_allowed = false ∧
    (evaluate_violation p violation_type N).action_taken = th.on_threshold ∧
    (evaluate_violation p violation_type (N - 1)).action_allowed = true := by
  have hge : N ≥ th.max_count := le_of_eq hmax
  have hlt : ¬ (N - 1 ≥ th.max_count) := by omega
  refine ⟨?_, ?_, ?_, ?_⟩
  · rw [recordViolationTimes_fst s violation_type ts N hN, hstart, Nat.zero_add]
  · simp [evaluate_violation, hth, hge]
  · simp [evaluate_violation, hth, hge]
  · simp [evaluate_violation, hth, hlt]

/-- C4 witness: fresh session, threshold pii_blocked with max 3 — the 3rd
call returns 3, count 3 denies with Kill, count 2 allows. -/
theorem violation_count_and_threshold_witness :
    (recordViolationTimes (Session.create "s1" "agent" 0) "pii_blocked" 0 3).1 = 3 ∧
    (evaluate_violation
        { violation_thresholds := [{ violation_type := "pii_blocked", max_count := 3,
                                     on_threshold := .kill }] }
        "pii_blocked" 3).action_allowed = false ∧
    (evaluate_violation
        { violation_thresholds := [{ violation_type := "pii_blocked", max_count := 3,
                                     on_threshold := .kill }] }
        "pii_blocked" 3).action_taken = PolicyAction.kill ∧
    (evaluate_violation
        { violation_thresholds := [{ violation_type := "pii_blocked", max_count := 3,
                                     on_threshold := .kill }] }
        "pii_blocked" 2).action_allowed = true :=
  violation_count_and_threshold
    { violation_thresholds := [{ violation_type := "pii_blocked", max_count := 3,
                                 on_threshold := .kill }] }
    (Session.create "s1" "agent" 0) "pii_blocked" 0
    { violation_type := "pii_blocked", max_count := 3, on_threshold := .kill } 3
    (by simp [Session.create, Session.vcount, dictGet]) (by decide) rfl (by decide)

/-- Session invariant of C6: the total cost equals the sum of the costs
in the action history and the action count equals its length. -/
def sessionInv (s : Session) : Prop :=
  s.total_cost = (s.actions.map ActionRecord.cost).sum ∧
  s.action_count = s.actions.length

/-- C6: the cost/count invariant holds for a fresh session and is
preserved by record_action (on success), record_violation, kill,
set_alert and complete — hence by every sequence of session
operations. -/
theorem sessionInv_preserved (session_id agent_id : String) (created_at : ℚ)
    (s s' : Session) (action : ActionRecord) (violation_type : String)
    (details : List (String × String)) (ts : ℚ) (reason : String) :
    sessionInv (Session.create session_id agent_id created_at) ∧
    (sessionInv s → s.record_action action = .ok s' → sessionInv s') ∧
    (sessionInv s → sessionInv (s.record_violation violation_type details ts).2) ∧
    (sessionInv s → sessionInv (s.kill reason)) ∧
    (sessionInv s → sessionInv s.set_alert) ∧
    (sessionInv s → sessionInv s.complete) := by
  refine ⟨?_, ?_, ?_, ?_, ?_, ?_⟩
  · simp [sessionInv, Session.create]
  · intro hinv hok
    rw [Session.record_action] at hok
    by_cases hact : s.is_active
    · rw [if_pos hact] at hok
      cases hok
      obtain ⟨hc, hn⟩ := hinv
      constructor
      · simp [hc]
      · simp [hn]
    · rw [if_neg hact] at hok
      cases hok
  · intro hinv
    obtain ⟨hc, hn⟩ := hinv
    exact ⟨hc, hn⟩
  · intro hinv
    exact hinv
  · intro hinv
    rw [Session.set_alert]
    by_cases hst : s.state = SessionState.active
    · rw [if_pos hst]
      exact hinv
    · rw [if_neg hst]
      exact hinv
  · intro hinv
    rw [Session.complete]
    by_cases hact : s.is_active
    · rw [if_pos hact]
      exact hinv
    · rw [if_neg hact]
      exact hinv

/-- C6 witness: the invariant holds concretely after recording one action
of cost 0.25 on a fresh session. -/
theorem sessionInv_preserved_witness :
    sessionInv { Session.create "s1" "agent" 0 with
                 actions := [{ action_name := "tool", timestamp := 1, cost := 1/4,
                               action_index := 0 }]
                 action_count := 1
                 total_cost := 0 + 1/4 } :=
  (sessionInv_preserved "s1" "agent" 0 (Session.create "s1" "agent" 0)
      { Session.create "s1" "agent" 0 with
        actions := [{ action_name := "tool", timestamp := 1, cost := 1/4,
                      action_index := 0 }]
        action_count := 1
        total_cost := 0 + 1/4 }
      { action_name := "tool", timestamp := 1, cost := 1/4 } "pii" [] 0 "r").2.1
    (by constructor <;> rfl)
    ((record_action_cases (Session.create "s1" "agent" 0)
        { action_name := "tool", timestamp := 1, cost := 1/4 }).2 rfl)

/-- C7 counterexample: record_action accepts a record with negative cost
on an active session, after which the total cost has strictly decreased
and is negative — refuting nonnegativity and monotone nondecrease for
arbitrary accepted ActionRecords. -/
theorem total_cost_negative_cost_counterexample :
    Except.map Session.total_cost
        ((Session.create "s1" "agent" 0).record_action
          { action_name := "tool", timestamp := 1, cost := -1 }) = .ok (-1) ∧
    ¬ ((0:ℚ) ≤ -1) := by
  constructor
  · rw [(record_action_cases (Session.create "s1" "agent" 0)
        { action_name := "tool", timestamp := 1, cost := -1 }).2 rfl]
    norm_num [Except.map, Session.create]
  · norm_num

/-- C7 amended: provided every accepted record's cost is nonnegative, the
total cost never decreases and stays nonnegative across record_action;
the action count and every per-type violation count are monotonically
non-decreasing ℕ-valued counters across record_action, record_violation,
kill, set_alert and complete, and record_violation creates the key with
value 1 on first occurrence. -/
theorem counters_monotone_amended (s s' : Session) (action : ActionRecord)
    (violation_type other_type : String) (details : List (String × String))
    (ts : ℚ) (reason : String) :
    (s.record_action action = .ok s' → 0 ≤ action.cost →
        s.total_cost ≤ s'.total_cost ∧ (0 ≤ s.total_cost → 0 ≤ s'.total_cost)) ∧
    (s.record_action action = .ok s' →
        s.action_count ≤ s'.action_count ∧
        s'.vcount other_type = s.vcount other_type) ∧
    (s.vcount other_type ≤
        ((s.record_violation violation_type details ts).2).vcount other_type ∧
     ((s.record_violation violation_type details ts).2).vcount violation_type =
        s.vcount violation_type + 1 ∧
     (s.record_violation violation_type details ts).2.total_cost = s.total_cost ∧
     (s.record_violation violation_type details ts).2.action_count = s.action_count) ∧
    (dictGet s.violation_counts violation_type = none →
        dictGet ((s.record_violation violation_type details ts).2).violation_counts
          violation_type = some 1) ∧
    ((s.kill reason).total_cost = s.total_cost ∧
     (s.kill reason).action_count = s.action_count ∧
     (s.kill reason).vcount other_type = s.vcount other_type) ∧
    (s.set_alert.total_cost = s.total_cost ∧
     s.set_alert.action_count = s.action_count ∧
     s.set_alert.vcount other_type = s.vcount other_type) ∧
    (s.complete.total_cost = s.total_cost ∧
     s.complete.action_count = s.action_count ∧
     s.complete.vcount other_type = s.vcount other_type) := by
  have hsucc : s.is_active = true →
      s.record_action action = .ok { s with
        actions := s.actions ++ [{ action with action_index := s.action_count }]
        action_count := s.action_count + 1
        total_cost := s.total_cost + action.cost } :=
    (record_action_cases s action).2
  refine ⟨?_, ?_, ⟨?_, ?_, rfl, rfl⟩, ?_, ⟨rfl, rfl, rfl⟩, ?_, ?_⟩
  · intro hok hcost
    by_cases hact : s.is_active
    · rw [hsucc hact] at hok
      cases hok
      constructor
      · show s.total_cost ≤ s.total_cost + action.cost
        linarith
      · intro h0
        show (0:ℚ) ≤ s.total_cost + action.cost
        linarith
    · rw [Session.record_action, if_neg hact] at hok
      cases hok
  · intro hok
    by_cases hact : s.is_active
    · rw [hsucc hact] at hok
      cases hok
      exact ⟨Nat.le_succ _, rfl⟩
    · rw [Session.record_action, if_neg hact] at hok
      cases hok
  · by_cases heq : other_type = violation_type
    · subst heq
      rw [vcount_record_violation]
      exact Nat.le_succ _
    · have : ((s.record_violation violation_type details ts).2).vcount other_type =
          s.vcount other_type := by
        simp [Session.record_violation, Session.vcount,
          dictGet_dictSet_other _ _ _ _ heq]
      rw [this]
  · exact vcount_record_violation s violation_type details ts
  · intro hnone
    have : s.vcount violation_type = 0 := by
      simp [Session.vcount, hnone]
    simp [Session.record_violation, Session.vcount, hnone,
      dictGet_dictSet_same]
  · rw [Session.set_alert]
    by_cases hst : s.state = SessionState.active
    · rw [if_pos hst]
      exact ⟨rfl, rfl, rfl⟩
    · rw [if_neg hst]
      exact ⟨rfl, rfl, rfl⟩
  · rw [Session.complete]
    by_cases hact : s.is_active
    · rw [if_pos hact]
      exact ⟨rfl, rfl, rfl⟩
    · rw [if_neg hact]
      exact ⟨rfl, rfl, rfl⟩

/-- C7 amended witness: recording a nonnegative-cost action on a fresh
session does not decrease the total cost. -/
theorem counters_monotone_amended_witness :
    (Session.create "s1" "agent" 0).total_cost ≤
      ({ Session.create "s1" "agent" 0 with
         actions := [{ action_name := "tool", timestamp := 1, cost := 1/4,
                       action_index := 0 }]
         action_count := 1
         total_cost := 0 + 1/4 } : Session).total_cost :=
  ((counters_monotone_amended (Session.create "s1" "agent" 0)
      { Session.create "s1" "agent" 0 with
        actions := [{ action_name := "tool", timestamp := 1, cost := 1/4,
                      action_index := 0 }]
        action_count := 1
        total_cost := 0 + 1/4 }
      { action_name := "tool", timestamp := 1, cost := 1/4 } "pii" "pii" [] 0 "r").1
    ((record_action_cases (Session.create "s1" "agent" 0)
        { action_name := "tool", timestamp := 1, cost := 1/4 }).2 rfl)
    (by norm_num)).1

/-- C1 counterexample: on a killed session (is_active = false),
Session.record_violation does not fail: it returns count 1, appends a
violation record, and changes the violation counters. -/
theorem record_violation_after_kill_counterexample :
    ((Session.create "s1" "agent" 0).kill "over budget").is_active = false ∧
    (((Session.create "s1" "agent" 0).kill "over budget").record_violation
        "pii_blocked" [] 0).1 = 1 ∧
    ((((Session.create "s1" "agent" 0).kill "over budget").record_violation
        "pii_blocked" [] 0).2).violations.length =
      (((Session.create "s1" "agent" 0).kill "over budget")).violations.length + 1 ∧
    ((((Session.create "s1" "agent" 0).kill "over budget").record_violation
        "pii_blocked" [] 0).2).vcount "pii_blocked" = 1 := by
  refine ⟨rfl, rfl, ?_, ?_⟩
  · simp [Session.create, Session.kill, Session.record_violation]
  · simp [Session.create, Session.kill, Session.record_violation, Session.vcount,
      dictGet, dictSet]

/-- C1 amended: Session.record_violation itself performs no state check —
it always increments the per-type counter and returns the new count, in
any state — while the SessionTerminated rejection for violation reporting
on a non-active session is enforced one level up: the orchestrator's
record_violation raises SessionKilledError before any mutation, leaving
all state unchanged. -/
theorem record_violation_guarded_at_orchestrator
    (tr : AgentTraceCore) (session_id violation_type : String)
    (details : List (String × String)) (ts : ℚ)
    (deliver : String → WebhookResult) (s : Session)
    (hget : tr.session_manager.get_session session_id = some s)
    (hinactive : s.is_active = false) :
    (∀ (s₂ : Session) (vt : String) (d : List (String × String)) (ts₂ : ℚ),
        (s₂.record_violation vt d ts₂).1 = s₂.vcount vt + 1) ∧
    tr.record_violation session_id violation_type details ts deliver =
      (.error (.sessionKilled ("Session " ++ session_id ++ " is " ++
          s.state.value ++ ": " ++ s.kill_reason.getD "None")), tr) := by
  constructor
  · intro s₂ vt d ts₂
    exact record_violation_returns_succ s₂ vt d ts₂
  · rw [AgentTraceCore.record_violation]
    rw [show get_active_session tr.session_manager session_id =
        .error (.sessionKilled ("Session " ++ session_id ++ " is " ++
          s.state.value ++ ": " ++ s.kill_reason.getD "None")) from by
      rw [get_active_session, hget]
      simp [hinactive]]

/-- A concrete orchestrator state holding one already-killed session,
used to witness the amended C1 and C2. -/
def trKilledExample : AgentTraceCore :=
  { policy := {}
    session_manager := ⟨[("s1", (Session.create "s1" "agent" 0).kill "over budget")]⟩
    kill_switch := ⟨[], []⟩ }

/-- Delivery oracle whose every attempt raises. -/
def deliverDown : String → WebhookResult :=
  fun _ => .exn "connection refused"

/-- C1 amended witness: reporting a violation for the killed session s1
through the orchestrator surfaces SessionKilledError and returns the
orchestrator state unchanged. -/
theorem record_violation_guarded_at_orchestrator_witness :
    trKilledExample.record_violation "s1" "pii_blocked" [] 0 deliverDown =
      (.error (.sessionKilled ("Session " ++ "s1" ++ " is " ++
          ((Session.create "s1" "agent" 0).kill "over budget").state.value ++ ": " ++
          ((Session.create "s1" "agent" 0).kill "over budget").kill_reason.getD "None")),
       trKilledExample) :=
  (record_violation_guarded_at_orchestrator trKilledExample "s1" "pii_blocked" [] 0
    deliverDown ((Session.create "s1" "agent" 0).kill "over budget")
    (by rw [trKilledExample]; rfl) rfl).2

/-- C2 counterexample: Session.kill is not idempotent with respect to the
reason and does not preserve terminal states — a second kill overwrites
the first reason, and killing a Completed session moves it to Killed. -/
theorem kill_overwrites_counterexample :
    (((Session.create "s1" "agent" 0).kill "first").kill "second").kill_reason =
      some "second" ∧
    (Session.create "s1" "agent" 0).complete.state = SessionState.completed ∧
    ((Session.create "s1" "agent" 0).complete.kill "late").state =
      SessionState.killed := by
  refine ⟨rfl, ?_, ?_⟩
  · rfl
  · rfl

/-- C2 amended: Session.kill itself unconditionally transitions to Killed
and records the given reason — the last reason wins and a terminal
session is overwritten — while the guarded, idempotent behaviour holds
one level up: SessionManager.kill_session kills only a session that
exists and is active, and is a no-op (returning false and the unchanged
registry) on terminal sessions and unknown ids, so through kill_session
the first kill's reason is preserved and no terminal state is ever
replaced. -/
theorem kill_guarded_at_registry (s : Session) (r : String)
    (m m₂ : SessionManager) (session_id session_id₂ reason reason₂ : String)
    (s₂ : Session)
    (hget : m.get_session session_id = some s₂)
    (hinactive : s₂.is_active = false)
    (hnone : m₂.get_session session_id₂ = none) :
    (s.kill r).state = SessionState.killed ∧
    (s.kill r).kill_reason = some r ∧
    m.kill_session session_id reason = (false, m) ∧
    m₂.kill_session session_id₂ reason₂ = (false, m₂) := by
  refine ⟨rfl, rfl, ?_, ?_⟩
  · rw [SessionManager.kill_session, hget]
    simp [hinactive]
  · rw [SessionManager.kill_session, hnone]

/-- C2 amended witness: a double kill at the session level keeps the last
reason, while kill_session on the already-killed registry entry s1 and on
an unknown id are both no-ops. -/
theorem kill_guarded_at_registry_witness :
    (((Session.create "s1" "agent" 0).kill "first").state = SessionState.killed ∧
     ((Session.create "s1" "agent" 0).kill "first").kill_reason = some "first") ∧
    trKilledExample.session_manager.kill_session "s1" "second reason" =
      (false, trKilledExample.session_manager) ∧
    trKilledExample.session_manager.kill_session "missing" "reason" =
      (false, trKilledExample.session_manager) := by
  have h := kill_guarded_at_registry (Session.create "s1" "agent" 0) "first"
    trKilledExample.session_manager trKilledExample.session_manager
    "s1" "missing" "second reason" "reason"
    ((Session.create "s1" "agent" 0).kill "over budget")
    (by rw [trKilledExample]; rfl) rfl
    (by rw [trKilledExample]; rfl)
  exact ⟨⟨h.1, h.2.1⟩, h.2.2.1, h.2.2.2⟩

/-- C9: KillSwitch.execute records exactly one outcome per configured
webhook, each outcome a function of that target's own delivery result
alone — an exception for one target becomes a failed outcome with the
error text, a response becomes a sent/failed outcome with its status
code, and neither prevents the other targets' outcomes nor the kill
itself: the session is killed and the finished event, notification list
included, is appended to the kill history and returned. -/
theorem kill_switch_execute_isolates (ks : KillSwitch) (s : Session)
    (reason : String) (ts : ℚ) (deliver : String → WebhookResult) :
    (ks.execute s reason ts deliver).1.notifications_sent.length =
      ks.webhooks.length ∧
    (∀ i : ℕ, (ks.execute s reason ts deliver).1.notifications_sent[i]? =
        (ks.webhooks[i]?).map (fun url => outcomeOf url (deliver url))) ∧
    (∀ url msg, outcomeOf url (.exn msg) =
        { kind := "webhook", url := url, status := "failed", error := some msg }) ∧
    (∀ url code, outcomeOf url (.response true code) =
        { kind := "webhook", url := url, status := "sent",
          status_code := some code }) ∧
    (∀ url code, outcomeOf url (.response false code) =
        { kind := "webhook", url := url, status := "failed",
          status_code := some code }) ∧
    (ks.execute s reason ts deliver).2.1 = s.kill reason ∧
    (ks.execute s reason ts deliver).2.2.kill_history =
      ks.kill_history ++ [(ks.execute s reason ts deliver).1] := by
  refine ⟨?_, ?_, ?_, ?_, ?_, rfl, rfl⟩
  · simp [KillSwitch.execute]
  · intro i
    simp [KillSwitch.execute]
  · intro url msg
    rfl
  · intro url code
    rfl
  · intro url code
    rfl

/-- Allocation returns a reference distinct from every valid existing
reference; writing through it leaves existing cells unchanged, and it
initially holds the allocated value. -/
theorem alloc_write_frame {α : Type} (h : Heap α) (w v : α) (r : ℕ)
    (hr : r < h.cells.length) :
    (h.alloc w).1 ≠ r ∧
    ((h.alloc w).2.write (h.alloc w).1 v).read r = h.read r ∧
    (h.alloc w).2.read (h.alloc w).1 = some w := by
  refine ⟨?_, ?_, ?_⟩
  · intro e
    rw [Heap.alloc] at e
    omega
  · rw [Heap.alloc, Heap.write, Heap.read, Heap.read]
    rw [List.getElem?_set_ne (by omega), List.getElem?_append, if_pos hr]
  · rw [Heap.alloc, Heap.read]
    simp

/-- C10: both copying accessors — Session.violation_counts building
`dict(self._violation_counts)` and KillSwitch.kill_history building
`list(self._kill_history)` — return a reference distinct from the
internal one that carries the same contents, so overwriting the returned
container with any value leaves the internal container exactly as it
was. -/
theorem copy_accessors_never_alias (hd : Heap (List (String × ℕ)))
    (hk : Heap (List KillEvent)) (rd rk : ℕ)
    (vd : List (String × ℕ)) (vk : List KillEvent)
    (hrd : rd < hd.cells.length) (hrk : rk < hk.cells.length) :
    (violation_counts_copy hd rd).1 ≠ rd ∧
    (((violation_counts_copy hd rd).2).write (violation_counts_copy hd rd).1 vd).read
        rd = hd.read rd ∧
    ((violation_counts_copy hd rd).2).read (violation_counts_copy hd rd).1 =
      some ((hd.read rd).getD []) ∧
    (kill_history_copy hk rk).1 ≠ rk ∧
    (((kill_history_copy hk rk).2).write (kill_history_copy hk rk).1 vk).read rk =
      hk.read rk ∧
    ((kill_history_copy hk rk).2).read (kill_history_copy hk rk).1 =
      some ((hk.read rk).getD []) := by
  obtain ⟨d1, d2, d3⟩ := alloc_write_frame hd ((hd.read rd).getD []) vd rd hrd
  obtain ⟨k1, k2, k3⟩ := alloc_write_frame hk ((hk.read rk).getD []) vk rk hrk
  exact ⟨d1, d2, d3, k1, k2, k3⟩

/-- C10 witness: a one-cell heap holding the counts dict of one session
with two pii blocks, and a one-cell heap holding a kill history of one
event; clearing the copies leaves the internals readable unchanged. -/
theorem copy_accessors_never_alias_witness :
    (((violation_counts_copy ⟨[[("pii_blocked", 2)]]⟩ 0).2).write
        (violation_counts_copy ⟨[[("pii_blocked", 2)]]⟩ 0).1 []).read 0 =
      some [("pii_blocked", 2)] ∧
    (((kill_history_copy ⟨[[]]⟩ 0).2).write
        (kill_history_copy ⟨[[]]⟩ 0).1 []).read 0 = some [] := by
  have h := copy_accessors_never_alias ⟨[[("pii_blocked", 2)]]⟩ ⟨[[]]⟩ 0 0 [] []
    (by decide) (by decide)
  exact ⟨h.2.1.trans rfl, h.2.2.2.2.1.trans rfl⟩
